import Mathlib

/-!
Shallow embedding of the azurerm resource handlers for virtual machine
extensions (`resource_arm_virtual_machine_extension.go`) and data factory
integration runtimes (`resource_arm_data_factory_integration_runtime.go`).

External collaborators (the SDK client, the resource-ID codec, JSON helpers,
location normalization) are modelled as oracle functions carried in an
environment record; the handler bodies are translated statement by statement
from the Go source.  Each API call a handler issues is recorded in a trace
(`List ApiCall`), the Terraform attribute store `d.Set` is modelled as a
prepend-only association list, and `d.SetId` as an explicit identifier field.
A Go runtime panic (out-of-range slice index) is modelled by the dedicated
outcome `Outcome.panic`.
-/

/-- One remote API call issued by a handler, with the addressing arguments it
was given (resource group / parent name / resource name). -/
inductive ApiCall where
  | get (rg parent name : String)
  | createOrUpdate (rg parent name : String)
  | delete (rg parent name : String)
  | waitForCompletion
  | listAuthKeys (rg parent name : String)
deriving DecidableEq, Repr

/-- True for the calls that mutate remote state. -/
def ApiCall.isMutating : ApiCall → Bool
  | .createOrUpdate _ _ _ => true
  | .delete _ _ _ => true
  | _ => false

/-- Errors a handler can return: either the structured
`tf.ImportAsExistsError` conflict (resource type, conflicting identifier) or a
plain formatted message. -/
inductive HandlerError where
  | importAsExists (resourceType id : String)
  | message (msg : String)
deriving DecidableEq, Repr

/-- Result of a handler invocation: normal return with `nil` error, return
with an error, or a Go runtime panic. -/
inductive Outcome where
  | ok
  | err (e : HandlerError)
  | panic
deriving DecidableEq, Repr

/-- True exactly for the `tf.ImportAsExistsError` conflict error. -/
def HandlerError.isConflictErr : HandlerError → Bool
  | .importAsExists _ _ => true
  | .message _ => false

/-- True exactly for the `tf.ImportAsExistsError` conflict outcome. -/
def Outcome.isImportConflict : Outcome → Bool
  | .err e => e.isConflictErr
  | _ => false

/-- The `azure.ResourceID` produced by `azure.ParseAzureResourceID`: a
resource group plus the ordered path-segment map. -/
structure ParsedId where
  resourceGroup : String
  path : List (String × String)
deriving DecidableEq, Repr

/-- Lookup of a path segment; `none` models the comma-ok form reporting a
missing key, and `.getD ""` models bare Go map indexing (zero value). -/
def ParsedId.find (p : ParsedId) (k : String) : Option String :=
  match p.path.find? (fun kv => kv.1 = k) with
  | some kv => some kv.2
  | none => none

/-- Opaque token standing for a decoded `map[string]interface{}` JSON value;
all operations on it go through the JSON oracle functions. -/
structure JsonMap where
  repr : String
deriving DecidableEq

/-- Value inside a flattened nested block (string or int entries of a
`map[string]interface{}`). -/
inductive BlockVal where
  | blkStr (s : String)
  | blkInt (n : Int)
deriving DecidableEq, Repr

/-- Value attached to a terraform attribute by `d.Set`. -/
inductive AttrVal where
  | str (s : String)
  | optStr (s : Option String)
  | optBool (b : Option Bool)
  | resId (p : ParsedId)
  | tagsV (t : List (String × String))
  | blocks (b : List (List (String × BlockVal)))
deriving DecidableEq

/-- The terraform attribute store: `d.Set` prepends, reads take the most
recent binding. -/
abbrev Store := List (String × AttrVal)

/-- `d.Set k v`. -/
def Store.set (s : Store) (k : String) (v : AttrVal) : Store := (k, v) :: s

/-- Current value of attribute `k` in the store. -/
def Store.find (s : Store) (k : String) : Option AttrVal :=
  match s with
  | [] => none
  | (k2, v) :: t => if k2 = k then some v else Store.find t k

/-- Locally persisted resource state: the stored identifier (`d.Id()` /
`d.SetId`) and the attribute store. -/
structure ResState where
  id : String
  store : Store
deriving DecidableEq

/-- What a handler invocation produces: the outcome, the updated local state
and the trace of API calls it issued, in order. -/
structure HandlerResult where
  outcome : Outcome
  state : ResState
  calls : List ApiCall
deriving DecidableEq

/-! ## Virtual machine extension (`resource_arm_virtual_machine_extension.go`) -/

/-- The `VirtualMachineExtensionProperties` fields the Read handler consumes
from a Get response (pointer fields are `Option`). -/
structure VMExtProps where
  publisher : Option String
  extType : Option String
  typeHandlerVersion : Option String
  autoUpgradeMinorVersion : Option Bool
  settings : Option JsonMap
deriving DecidableEq

/-- Outcome of `client.Get` for a VM extension: the error (if any), whether
`utils.ResponseWasNotFound(resp.Response)` holds, and the response body
fields the handlers consume. -/
structure VMGetOutcome where
  err : Option String
  notFound : Bool
  respId : Option String
  respName : Option String
  respLocation : Option String
  respProps : Option VMExtProps
  respTags : List (String × String)
deriving DecidableEq

/-- Environment of external collaborators for the VM extension handlers:
the ID codec, the typed SDK client (responses keyed by call arguments), the
long-running-operation waits, the JSON helpers and location normalization.
All are out-of-scope collaborators per the spec and enter as oracles. -/
structure VMEnv where
  parseId : String → Except String ParsedId
  get : String → String → String → VMGetOutcome
  createOrUpdateErr : String → String → String → Option String
  waitCreateErr : Option String
  deleteErr : String → String → String → Option String
  waitDeleteErr : Option String
  expandJson : String → Except String JsonMap
  flattenJson : JsonMap → Except String String
  normalizeLocation : String → String

/-- The attribute values `resourceArmVirtualMachineExtensionsCreateUpdate`
reads from `d`, plus `d.IsNewResource()` and the
`features.ShouldResourcesBeImported()` configuration flag. -/
structure VMCreateInput where
  name : String
  virtual_machine_id : String
  virtual_machine_name : String
  resource_group_name : String
  location : String
  publisher : String
  extType : String
  type_handler_version : String
  auto_upgrade_minor_version : Bool
  tags : List (String × String)
  settings : String
  protected_settings : String
  isNewResource : Bool
  shouldResourcesBeImported : Bool

/-- Lines 154-173 of the Go file: resolve `(resGroup, vmName)` from either
`virtual_machine_id` (parsed) or `virtual_machine_name` plus
`resource_group_name`. -/
def vmExtResolveVm (env : VMEnv) (inp : VMCreateInput) :
    Except HandlerError (String × String) :=
  if inp.virtual_machine_name = "" then
    if inp.virtual_machine_id = "" then
      .error (.message "one of `virtual_machine_id` or `virtual_machine_name` must be set")
    else
      match env.parseId inp.virtual_machine_id with
      | .error e => .error (.message e)
      | .ok id =>
        match id.find "virtualMachines" with
        | none => .error (.message
            ("virtual_machine_id does not contain `virtualMachines`: " ++ inp.virtual_machine_id))
        | some vmNameTemp => .ok (id.resourceGroup, vmNameTemp)
  else if inp.resource_group_name = "" then
    .error (.message "one of `resource_group_name` must be set when `virtual_machine_name` is used")
  else
    .ok (inp.resource_group_name, inp.virtual_machine_name)

/-- One JSON-string-attribute decoding block of the Create/Update handler
(lines 186-200, identical for `settings` and `protected_settings`): the empty
string is skipped, a decode failure yields the parse error citing the
attribute, success yields the decoded map. -/
def vmExtJsonStep (env : VMEnv) (attr s : String) : Except HandlerError (Option JsonMap) :=
  if s = "" then .ok none
  else
    match env.expandJson s with
    | .error e => .error (.message ("unable to parse " ++ attr ++ ": " ++ e))
    | .ok m => .ok (some m)

/-- `resourceArmVirtualMachineExtensionsRead`. -/
def vmExtRead (env : VMEnv) (st : ResState) : HandlerResult :=
  match env.parseId st.id with
  | .error e => ⟨.err (.message e), st, []⟩
  | .ok id =>
    let resGroup := id.resourceGroup
    let vmName := (id.find "virtualMachines").getD ""
    let name := (id.find "extensions").getD ""
    let resp := env.get resGroup vmName name
    let calls := [ApiCall.get resGroup vmName name]
    match resp.err with
    | some e =>
      if resp.notFound then
        ⟨.ok, ⟨"", st.store⟩, calls⟩
      else
        ⟨.err (.message
          ("Error making Read request on Virtual Machine Extension " ++ name ++ ": " ++ e)),
         st, calls⟩
    | none =>
      let s := st.store.set "name" (.optStr resp.respName)
      let s := match resp.respLocation with
        | some location => s.set "location" (.str (env.normalizeLocation location))
        | none => s
      let s := s.set "virtual_machine_id" (.resId id)
      let s := s.set "virtual_machine_name" (.str vmName)
      let s := s.set "resource_group_name" (.str resGroup)
      match resp.respProps with
      | none => ⟨.ok, ⟨st.id, s.set "tags" (.tagsV resp.respTags)⟩, calls⟩
      | some props =>
        let s := s.set "publisher" (.optStr props.publisher)
        let s := s.set "type" (.optStr props.extType)
        let s := s.set "type_handler_version" (.optStr props.typeHandlerVersion)
        let s := s.set "auto_upgrade_minor_version" (.optBool props.autoUpgradeMinorVersion)
        match props.settings with
        | none => ⟨.ok, ⟨st.id, s.set "tags" (.tagsV resp.respTags)⟩, calls⟩
        | some settings =>
          match env.flattenJson settings with
          | .error e =>
            ⟨.err (.message ("unable to parse settings from response: " ++ e)), ⟨st.id, s⟩, calls⟩
          | .ok settingsJson =>
            let s := s.set "settings" (.str settingsJson)
            ⟨.ok, ⟨st.id, s.set "tags" (.tagsV resp.respTags)⟩, calls⟩

/-- `resourceArmVirtualMachineExtensionsCreateUpdate` from line 147 on (after
the import existence check): resolution, payload build with JSON decoding,
CreateOrUpdate, wait, re-read, SetId, then delegation to Read.  `calls0` is
the trace accumulated by the existence check. -/
def vmExtCreateAfterImportCheck (env : VMEnv) (inp : VMCreateInput) (st : ResState)
    (calls0 : List ApiCall) : HandlerResult :=
  match vmExtResolveVm env inp with
  | .error e => ⟨.err e, st, calls0⟩
  | .ok (resGroup, vmName) =>
    match vmExtJsonStep env "settings" inp.settings with
    | .error e => ⟨.err e, st, calls0⟩
    | .ok _ =>
      match vmExtJsonStep env "protected_settings" inp.protected_settings with
      | .error e => ⟨.err e, st, calls0⟩
      | .ok _ =>
        let calls := calls0 ++ [ApiCall.createOrUpdate resGroup vmName inp.name]
        match env.createOrUpdateErr resGroup vmName inp.name with
        | some e => ⟨.err (.message e), st, calls⟩
        | none =>
          let calls := calls ++ [ApiCall.waitForCompletion]
          match env.waitCreateErr with
          | some e => ⟨.err (.message e), st, calls⟩
          | none =>
            let read := env.get resGroup vmName inp.name
            let calls := calls ++ [ApiCall.get resGroup vmName inp.name]
            match read.err with
            | some e => ⟨.err (.message e), st, calls⟩
            | none =>
              match read.respId with
              | none => ⟨.err (.message
                  ("Cannot read  Virtual Machine Extension " ++ inp.name ++
                   " (resource group " ++ resGroup ++ ") ID")), st, calls⟩
              | some rid =>
                let r := vmExtRead env ⟨rid, st.store⟩
                ⟨r.outcome, r.state, calls ++ r.calls⟩

/-- `resourceArmVirtualMachineExtensionsCreateUpdate`, lines 123-223: the import
existence check guarded by `features.ShouldResourcesBeImported() &&
d.IsNewResource()`, then the rest of the handler. -/
def vmExtCreateUpdate (env : VMEnv) (inp : VMCreateInput) (st : ResState) : HandlerResult :=
  if inp.shouldResourcesBeImported && inp.isNewResource then
    let existing := env.get inp.resource_group_name inp.virtual_machine_name inp.name
    let calls := [ApiCall.get inp.resource_group_name inp.virtual_machine_name inp.name]
    if existing.err.isSome && !existing.notFound then
      ⟨.err (.message
        ("Error checking for presence of existing Extension " ++ inp.name ++
         " (Virtual Machine " ++ inp.virtual_machine_name ++ " / Resource Group " ++
         inp.resource_group_name ++ "): " ++ existing.err.getD "")), st, calls⟩
    else if existing.respId.getD "" ≠ "" then
      ⟨.err (.importAsExists "azurerm_virtual_machine_extension" (existing.respId.getD "")),
       st, calls⟩
    else
      vmExtCreateAfterImportCheck env inp st calls
  else
    vmExtCreateAfterImportCheck env inp st []

/-- `resourceArmVirtualMachineExtensionsDelete`. -/
def vmExtDelete (env : VMEnv) (st : ResState) : HandlerResult :=
  match env.parseId st.id with
  | .error e => ⟨.err (.message e), st, []⟩
  | .ok id =>
    let resGroup := id.resourceGroup
    let name := (id.find "extensions").getD ""
    let vmName := (id.find "virtualMachines").getD ""
    let calls := [ApiCall.delete resGroup vmName name]
    match env.deleteErr resGroup vmName name with
    | some e => ⟨.err (.message e), st, calls⟩
    | none =>
      let calls := calls ++ [ApiCall.waitForCompletion]
      match env.waitDeleteErr with
      | some e => ⟨.err (.message e), st, calls⟩
      | none => ⟨.ok, st, calls⟩

/-! ## Data factory integration runtime
(`resource_arm_data_factory_integration_runtime.go`) -/

/-- One element of the `compute_properties` TypeList as the handler reads it
(`config := computeProperties[0].(map[string]interface{})`). -/
structure ComputeConfig where
  location : String
  node_size : String
  node_count : Int
  max_node_executions : Int
  vnet_id : String
  subnet : String
deriving DecidableEq, Repr

/-- The Go conversion `int32(n)`: wrap-around into `[-2^31, 2^31)`. -/
def toInt32 (n : Int) : Int := (n + 2 ^ 31) % 2 ^ 32 - 2 ^ 31

/-- `datafactory.IntegrationRuntimeVNetProperties` as the expand function
builds it: both pointers always set when present. -/
structure IRVNetProperties where
  vnetId : String
  subnet : String
deriving DecidableEq, Repr

/-- `datafactory.IntegrationRuntimeComputeProperties` (pointer fields are
`Option`; counters are int32 values). -/
structure IRComputeProperties where
  location : Option String
  nodeSize : Option String
  numberOfNodes : Option Int
  maxParallelExecutionsPerNode : Option Int
  vnetProperties : Option IRVNetProperties
deriving DecidableEq, Repr

/-- Result of `expandAzureDataFactoryIntegrationRuntimeComputeProperties`:
`panic` models the out-of-range index `computeProperties[0]` on an empty
slice; `err` the returned error; `ok` the built properties. -/
inductive ExpandResult where
  | panic
  | err (msg : String)
  | ok (props : IRComputeProperties)
deriving DecidableEq, Repr

/-- `expandAzureDataFactoryIntegrationRuntimeComputeProperties`, lines
318-351.  The Go code indexes `computeProperties[0]` with no length check, so
the empty list (an absent `compute_properties` block) is a runtime panic. -/
def expandCompute (computeProperties : List ComputeConfig) : ExpandResult :=
  match computeProperties with
  | [] => .panic
  | config :: _ =>
    let location := config.location
    let nodeSize := config.node_size
    let nodeCount := toInt32 config.node_count
    let maxNodeExecutions := toInt32 config.max_node_executions
    let vnetId := config.vnet_id
    let subnet := config.subnet
    if vnetId ≠ "" && subnet ≠ "" then
      .ok ⟨some location, some nodeSize, some nodeCount, some maxNodeExecutions,
           some ⟨vnetId, subnet⟩⟩
    else if vnetId ≠ "" || subnet ≠ "" then
      .err "Both `vnet_id` and `subnet` must be provided if setting the vnet properties"
    else
      .ok ⟨some location, some nodeSize, some nodeCount, some maxNodeExecutions, none⟩

/-- `flattenAzureDataFactoryIntegrationRuntimeComputeProperties`, lines
292-316: a `nil` pointer flattens to the empty list, otherwise to a
single-element list holding a map with one entry per non-nil field, in the
insertion order of the Go code. -/
def flattenCompute (properties : Option IRComputeProperties) :
    List (List (String × BlockVal)) :=
  match properties with
  | none => []
  | some p =>
    let result : List (String × BlockVal) := []
    let result := match p.location with
      | some l => result ++ [("location", .blkStr l)]
      | none => result
    let result := match p.nodeSize with
      | some ns => result ++ [("node_size", .blkStr ns)]
      | none => result
    let result := match p.numberOfNodes with
      | some n => result ++ [("node_count", .blkInt n)]
      | none => result
    let result := match p.maxParallelExecutionsPerNode with
      | some m => result ++ [("max_node_executions", .blkInt m)]
      | none => result
    let result := match p.vnetProperties with
      | some v => result ++ [("vnet_id", .blkStr v.vnetId), ("subnet", .blkStr v.subnet)]
      | none => result
    [result]

/-- Lookup of a key in a flattened block map. -/
def blockFind (m : List (String × BlockVal)) (k : String) : Option BlockVal :=
  match m with
  | [] => none
  | (k2, v) :: t => if k2 = k then some v else blockFind t k

/-- The character class of the validator regex `^[.+?/<>*%&:\\]+$`. -/
def forbiddenRuntimeNameChars : List Char :=
  ['.', '+', '?', '/', '<', '>', '*', '%', '&', ':', '\\']

/-- Whether the whole string matches `^[.+?/<>*%&:\\]+$`: at least one
character and every character drawn from the class. -/
def runtimeNameMatches (value : String) : Bool :=
  value ≠ "" && value.data.all (fun c => c ∈ forbiddenRuntimeNameChars)

/-- `validateAzureRMDataFactoryIntegrationRuntimeName`, lines 283-290:
returns `(warnings, errors)`. -/
def validateAzureRMDataFactoryIntegrationRuntimeName (v k : String) :
    List String × List String :=
  if runtimeNameMatches v then
    ([], ["any of \x27.\x27, \x27+\x27, \x27?\x27, \x27/\x27, \x27<\x27, \x27>\x27, \x27*\x27, \x27%\x27, \x27&\x27, \x27:\x27, \x27\\\x27, are not allowed in \"" ++ k ++ "\": \"" ++ v ++ "\""])
  else
    ([], [])

/-- The integration-runtime properties the Read handler consumes after
`resp.Properties.AsIntegrationRuntime()`: description, the discriminating
type string and (for Managed) the compute properties. -/
structure DFRuntimeProps where
  description : Option String
  runtimeType : String
  computeProperties : Option IRComputeProperties
deriving DecidableEq

/-- Outcome of `client.Get` for an integration runtime. -/
structure DFGetOutcome where
  err : Option String
  notFound : Bool
  respId : Option String
  respName : Option String
  respProps : Option DFRuntimeProps
deriving DecidableEq

/-- Outcome of `client.ListAuthKeys`. -/
structure DFAuthKeysOutcome where
  err : Option String
  authKey1 : Option String
  authKey2 : Option String
deriving DecidableEq

/-- Environment of external collaborators for the integration runtime
handlers.  The SDK operations `CreateOrUpdate` and `Delete` of the
2018-06-01 data factory `IntegrationRuntimesClient` are synchronous: they
return a result and an error directly, not a pollable future, so no wait
oracle exists here. -/
structure DFEnv where
  parseId : String → Except String ParsedId
  get : String → String → String → DFGetOutcome
  createOrUpdateErr : String → String → String → Option String
  deleteErr : String → String → String → Option String
  listAuthKeys : String → String → String → DFAuthKeysOutcome

/-- The attribute values
`resourceArmDataFactoryIntegrationRuntimeCreateOrUpdate` reads from `d`,
plus `d.IsNewResource()` and the package-level
`requireResourcesToBeImported` flag. -/
structure DFInput where
  name : String
  resource_group_name : String
  data_factory_name : String
  description : String
  runtimeType : String
  compute_properties : List ComputeConfig
  isNewResource : Bool
  requireResourcesToBeImported : Bool

/-- `resourceArmDataFactoryIntegrationRuntimeRead`, lines 215-262. -/
def dfRead (env : DFEnv) (st : ResState) : HandlerResult :=
  match env.parseId st.id with
  | .error e => ⟨.err (.message e), st, []⟩
  | .ok id =>
    let dataFactoryName := (id.find "factories").getD ""
    let name := (id.find "integrationruntimes").getD ""
    let resp := env.get id.resourceGroup dataFactoryName name
    let calls := [ApiCall.get id.resourceGroup dataFactoryName name]
    match resp.err with
    | some e =>
      if resp.notFound then
        ⟨.ok, ⟨"", st.store⟩, calls⟩
      else
        ⟨.err (.message
          ("Error reading the state of Data Factory Integration Runtime " ++ name ++ ": " ++ e)),
         st, calls⟩
    | none =>
      let s := st.store.set "name" (.optStr resp.respName)
      let s := s.set "resource_group_name" (.str id.resourceGroup)
      let s := s.set "data_factory_name" (.str dataFactoryName)
      match resp.respProps with
      | none => ⟨.ok, ⟨st.id, s⟩, calls⟩
      | some props =>
        let s := s.set "description" (.optStr props.description)
        let s := s.set "type" (.str props.runtimeType)
        if props.runtimeType = "SelfHosted" then
          let keys := env.listAuthKeys id.resourceGroup dataFactoryName name
          let calls := calls ++ [ApiCall.listAuthKeys id.resourceGroup dataFactoryName name]
          match keys.err with
          | some e => ⟨.err (.message e), ⟨st.id, s⟩, calls⟩
          | none =>
            let s := s.set "auth_key_1" (.optStr keys.authKey1)
            let s := s.set "auth_key_2" (.optStr keys.authKey2)
            ⟨.ok, ⟨st.id, s⟩, calls⟩
        else if props.runtimeType = "Managed" then
          let s := s.set "compute_properties" (.blocks (flattenCompute props.computeProperties))
          ⟨.ok, ⟨st.id, s⟩, calls⟩
        else
          ⟨.ok, ⟨st.id, s⟩, calls⟩

/-- The variant-discriminated payload build of the Create/Update handler
(lines 171-191): SelfHosted needs no expansion; Managed runs `expandCompute`
with its error (wrapped) and panic propagated; any other type string builds
a nil payload with no error (the Go switch has no default case). -/
def dfPayloadStep (inp : DFInput) : Outcome :=
  if inp.runtimeType = "SelfHosted" then .ok
  else if inp.runtimeType = "Managed" then
    match expandCompute inp.compute_properties with
    | .panic => .panic
    | .err e => .err (.message ("Error parsing integration runtime compute properties: " ++ e))
    | .ok _ => .ok
  else .ok

/-- `resourceArmDataFactoryIntegrationRuntimeCreateOrUpdate` from line 169 on
(after the import existence check): variant-discriminated payload build
(`expandCompute` for Managed, with its error and panic propagation),
CreateOrUpdate (synchronous, no wait), re-read, SetId, then delegation to
Read.  `calls0` is the trace accumulated by the existence check. -/
def dfCreateAfterImportCheck (env : DFEnv) (inp : DFInput) (st : ResState)
    (calls0 : List ApiCall) : HandlerResult :=
  match dfPayloadStep inp with
  | .panic => ⟨.panic, st, calls0⟩
  | .err e => ⟨.err e, st, calls0⟩
  | .ok =>
    let calls := calls0 ++
      [ApiCall.createOrUpdate inp.resource_group_name inp.data_factory_name inp.name]
    match env.createOrUpdateErr inp.resource_group_name inp.data_factory_name inp.name with
    | some e => ⟨.err (.message
        ("Error creating Data Factory Integration Runtime " ++ inp.name ++
         " (Resource Group " ++ inp.resource_group_name ++ " / Data Factory " ++
         inp.data_factory_name ++ "): " ++ e)), st, calls⟩
    | none =>
      let read := env.get inp.resource_group_name inp.data_factory_name inp.name
      let calls := calls ++
        [ApiCall.get inp.resource_group_name inp.data_factory_name inp.name]
      match read.err with
      | some e => ⟨.err (.message
          ("Error retrieving Data Factory Integration Runtime " ++ inp.name ++
           " (Resource Group " ++ inp.resource_group_name ++ " / Data Factory " ++
           inp.data_factory_name ++ "): " ++ e)), st, calls⟩
      | none =>
        match read.respId with
        | none => ⟨.err (.message
            ("Cannot read Data Factory Integration Runtime " ++ inp.name ++
             " (Resource Group " ++ inp.resource_group_name ++ " / Data Factory " ++
             inp.data_factory_name ++ ") ID")), st, calls⟩
        | some rid =>
          let r := dfRead env ⟨rid, st.store⟩
          ⟨r.outcome, r.state, calls ++ r.calls⟩

/-- `resourceArmDataFactoryIntegrationRuntimeCreateOrUpdate`, lines 148-213:
the import existence check guarded by `requireResourcesToBeImported &&
d.IsNewResource()`, then the rest of the handler. -/
def dfCreateOrUpdate (env : DFEnv) (inp : DFInput) (st : ResState) : HandlerResult :=
  if inp.requireResourcesToBeImported && inp.isNewResource then
    let existing := env.get inp.resource_group_name inp.data_factory_name inp.name
    let calls := [ApiCall.get inp.resource_group_name inp.data_factory_name inp.name]
    if existing.err.isSome && !existing.notFound then
      ⟨.err (.message
        ("Error checking for presence of existing Data Factory Integration Runtime " ++
         inp.name ++ " (Resource Group " ++ inp.resource_group_name ++ " / Data Factory " ++
         inp.data_factory_name ++ "): " ++ existing.err.getD "")), st, calls⟩
    else if existing.respId.getD "" ≠ "" then
      ⟨.err (.importAsExists "azurerm_data_factory_integration_runtime"
        (existing.respId.getD "")), st, calls⟩
    else
      dfCreateAfterImportCheck env inp st calls
  else
    dfCreateAfterImportCheck env inp st []

/-- `resourceArmDataFactoryIntegrationRuntimeDelete`, lines 264-281: parse,
one synchronous Delete call, no wait. -/
def dfDelete (env : DFEnv) (st : ResState) : HandlerResult :=
  match env.parseId st.id with
  | .error e => ⟨.err (.message e), st, []⟩
  | .ok id =>
    let dataFactoryName := (id.find "factories").getD ""
    let name := (id.find "integrationruntimes").getD ""
    let resourceGroupName := id.resourceGroup
    let calls := [ApiCall.delete resourceGroupName dataFactoryName name]
    match env.deleteErr resourceGroupName dataFactoryName name with
    | some e => ⟨.err (.message
        ("Error deleting Data Factory Integration Runtime " ++ name ++
         " (Resource Group " ++ resourceGroupName ++ " / Data Factory " ++
         dataFactoryName ++ "): " ++ e)), st, calls⟩
    | none => ⟨.ok, st, calls⟩

/-! ## Concrete fixtures used by witness theorems -/

/-- A parsed composite identifier carrying all path segments the handlers
look up. -/
def wId : ParsedId :=
  ⟨"rg1", [("virtualMachines", "vm1"), ("extensions", "ext1"),
           ("factories", "df1"), ("integrationruntimes", "ir1")]⟩

/-- Extension properties of a successful VM extension Get response. -/
def wVMProps : VMExtProps := ⟨some "pub", some "CustomScript", some "2.0", some true, none⟩

/-- Successful VM extension Get response. -/
def wVMGetOk : VMGetOutcome :=
  ⟨none, false, some "/subs/s1/ext-id", some "ext1", some "westus", some wVMProps, []⟩

/-- VM extension Get failing with a 404. -/
def wVMGetNotFound : VMGetOutcome := ⟨some "404 not found", true, none, none, none, none, []⟩

/-- VM extension Get failing with a non-404 error. -/
def wVMGetFail : VMGetOutcome := ⟨some "throttled", false, none, none, none, none, []⟩

/-- VM extension environment whose Get always succeeds. -/
def wVMEnvHappy : VMEnv :=
  ⟨fun _ => .ok wId, fun _ _ _ => wVMGetOk, fun _ _ _ => none, none,
   fun _ _ _ => none, none, fun s => .ok ⟨s⟩, fun m => .ok m.repr, fun l => l⟩

/-- VM extension environment whose Get always reports 404. -/
def wVMEnvNotFound : VMEnv :=
  ⟨fun _ => .ok wId, fun _ _ _ => wVMGetNotFound, fun _ _ _ => none, none,
   fun _ _ _ => none, none, fun s => .ok ⟨s⟩, fun m => .ok m.repr, fun l => l⟩

/-- VM extension environment whose Get always fails hard (non-404). -/
def wVMEnvFail : VMEnv :=
  ⟨fun _ => .ok wId, fun _ _ _ => wVMGetFail, fun _ _ _ => none, none,
   fun _ _ _ => none, none, fun s => .ok ⟨s⟩, fun m => .ok m.repr, fun l => l⟩

/-- VM extension environment whose JSON decoder always fails. -/
def wVMEnvBadJson : VMEnv :=
  ⟨fun _ => .ok wId, fun _ _ _ => wVMGetOk, fun _ _ _ => none, none,
   fun _ _ _ => none, none, fun _ => .error "invalid character", fun m => .ok m.repr,
   fun l => l⟩

/-- Local state of an already-persisted VM extension. -/
def wStVM : ResState := ⟨"/subs/s1/ext-id", []⟩

/-- Create/Update input using the legacy name-based reference, adoption
allowed, no JSON blobs. -/
def wVMInputHappy : VMCreateInput :=
  ⟨"ext1", "", "vm1", "rg1", "westus", "pub", "CustomScript", "2.0", false, [], "", "",
   true, false⟩

/-- Same input with adoption disallowed on a new resource. -/
def wVMInputGuarded : VMCreateInput :=
  ⟨"ext1", "", "vm1", "rg1", "westus", "pub", "CustomScript", "2.0", false, [], "", "",
   true, true⟩

/-- Input with neither `virtual_machine_id` nor `virtual_machine_name`. -/
def wVMInputNoVm : VMCreateInput :=
  ⟨"ext1", "", "", "rg1", "westus", "pub", "CustomScript", "2.0", false, [], "", "",
   true, false⟩

/-- Input with a non-empty, non-JSON `settings` string. -/
def wVMInputBadSettings : VMCreateInput :=
  ⟨"ext1", "", "vm1", "rg1", "westus", "pub", "CustomScript", "2.0", false, [],
   "not valid json", "", true, false⟩

/-- Integration runtime properties of a SelfHosted Get response. -/
def wDFProps : DFRuntimeProps := ⟨some "desc", "SelfHosted", none⟩

/-- Successful integration runtime Get response. -/
def wDFGetOk : DFGetOutcome := ⟨none, false, some "/subs/s1/ir-id", some "ir1", some wDFProps⟩

/-- Integration runtime Get failing with a 404. -/
def wDFGetNotFound : DFGetOutcome := ⟨some "404 not found", true, none, none, none⟩

/-- Integration runtime Get failing with a non-404 error. -/
def wDFGetFail : DFGetOutcome := ⟨some "throttled", false, none, none, none⟩

/-- Integration runtime environment whose Get always succeeds. -/
def wDFEnvHappy : DFEnv :=
  ⟨fun _ => .ok wId, fun _ _ _ => wDFGetOk, fun _ _ _ => none, fun _ _ _ => none,
   fun _ _ _ => ⟨none, some "key1", some "key2"⟩⟩

/-- Integration runtime environment whose Get always reports 404. -/
def wDFEnvNotFound : DFEnv :=
  ⟨fun _ => .ok wId, fun _ _ _ => wDFGetNotFound, fun _ _ _ => none, fun _ _ _ => none,
   fun _ _ _ => ⟨none, some "key1", some "key2"⟩⟩

/-- Integration runtime environment whose Get always fails hard (non-404). -/
def wDFEnvFail : DFEnv :=
  ⟨fun _ => .ok wId, fun _ _ _ => wDFGetFail, fun _ _ _ => none, fun _ _ _ => none,
   fun _ _ _ => ⟨none, some "key1", some "key2"⟩⟩

/-- Local state of an already-persisted integration runtime. -/
def wStDF : ResState := ⟨"/subs/s1/ir-id", []⟩

/-- SelfHosted Create/Update input, adoption allowed. -/
def wDFInputSelfHosted : DFInput := ⟨"ir1", "rg1", "df1", "desc", "SelfHosted", [], true, false⟩

/-- SelfHosted Create/Update input, adoption disallowed on a new resource. -/
def wDFInputGuarded : DFInput := ⟨"ir1", "rg1", "df1", "desc", "SelfHosted", [], true, true⟩

/-- Managed Create/Update input whose `compute_properties` block is absent
(the empty TypeList). -/
def wDFInputManagedNoCompute : DFInput := ⟨"ir1", "rg1", "df1", "desc", "Managed", [], false, false⟩

/-- A vnet-free compute configuration. -/
def wCfgNoVnet : ComputeConfig := ⟨"westus", "Standard_D8_v3", 4, 4, "", ""⟩

/-- A compute configuration with both vnet attributes. -/
def wCfgVnetBoth : ComputeConfig := ⟨"westus", "Standard_D8_v3", 4, 4, "/vnets/v1", "sub1"⟩

/-- A compute configuration with only `vnet_id` supplied. -/
def wCfgVnetOnly : ComputeConfig := ⟨"westus", "Standard_D8_v3", 4, 4, "/vnets/v1", ""⟩

/-- The import existence check of the VM extension Create/Update handler
does not abort: either it is disabled, or the check Get neither fails hard
nor reveals an existing object. -/
def vmImportCheckPasses (env : VMEnv) (inp : VMCreateInput) : Prop :=
  (inp.shouldResourcesBeImported && inp.isNewResource) = true →
    ((env.get inp.resource_group_name inp.virtual_machine_name inp.name).err.isSome &&
      !(env.get inp.resource_group_name inp.virtual_machine_name inp.name).notFound) = false ∧
    (env.get inp.resource_group_name inp.virtual_machine_name inp.name).respId.getD "" = ""

/-- VM extension Get response revealing an already-existing object. -/
def wVMGetExisting : VMGetOutcome :=
  ⟨none, false, some "/subs/s1/ext-exists", none, none, none, []⟩

/-- VM extension environment whose Get reveals an existing object. -/
def wVMEnvExisting : VMEnv :=
  ⟨fun _ => .ok wId, fun _ _ _ => wVMGetExisting, fun _ _ _ => none, none,
   fun _ _ _ => none, none, fun s => .ok ⟨s⟩, fun m => .ok m.repr, fun l => l⟩

/-- Input with empty `settings` and a non-empty, non-JSON
`protected_settings` string. -/
def wVMInputBadProtected : VMCreateInput :=
  ⟨"ext1", "", "vm1", "rg1", "westus", "pub", "CustomScript", "2.0", false, [],
   "", "not valid json", true, false⟩

/-- Integration runtime Get response revealing an already-existing object. -/
def wDFGetExisting : DFGetOutcome := ⟨none, false, some "/subs/s1/ir-exists", none, none⟩

/-- Integration runtime environment whose Get reveals an existing object. -/
def wDFEnvExisting : DFEnv :=
  ⟨fun _ => .ok wId, fun _ _ _ => wDFGetExisting, fun _ _ _ => none, fun _ _ _ => none,
   fun _ _ _ => ⟨none, some "key1", some "key2"⟩⟩

/-! ## Helper lemmas -/

/-- Setting one attribute leaves the lookup of a different key unchanged. -/
theorem Store.find_set_ne (s : Store) (k k2 : String) (v : AttrVal) (h : k2 ≠ k) :
    (s.set k2 v).find k = s.find k := by
  simp [Store.set, Store.find, h]

/-- The Read handler for VM extensions never returns the import conflict. -/
theorem vmExtRead_not_conflict (env : VMEnv) (st : ResState) :
    (vmExtRead env st).outcome.isImportConflict = false := by
  unfold vmExtRead
  dsimp only
  repeat' split
  all_goals rfl

/-- The identifier resolution step only fails with plain messages. -/
theorem vmExtResolveVm_no_conflict (env : VMEnv) (inp : VMCreateInput) (e : HandlerError)
    (h : vmExtResolveVm env inp = .error e) : e.isConflictErr = false := by
  unfold vmExtResolveVm at h
  repeat' split at h
  all_goals simp_all [HandlerError.isConflictErr]
  all_goals (rw [← h])

/-- The JSON decoding step only fails with plain messages. -/
theorem vmExtJsonStep_no_conflict (env : VMEnv) (attr s : String) (e : HandlerError)
    (h : vmExtJsonStep env attr s = .error e) : e.isConflictErr = false := by
  unfold vmExtJsonStep at h
  repeat' split at h
  all_goals simp_all [HandlerError.isConflictErr]
  all_goals (rw [← h])

/-- The payload build step only fails with plain messages. -/
theorem dfPayloadStep_no_conflict (inp : DFInput) (e : HandlerError)
    (h : dfPayloadStep inp = .err e) : e.isConflictErr = false := by
  unfold dfPayloadStep at h
  repeat' split at h
  all_goals simp_all [HandlerError.isConflictErr]
  all_goals (rw [← h])

/-- The post-existence-check part of the VM extension Create/Update handler
never returns the import conflict. -/
theorem vmExtCreateAfterImportCheck_not_conflict (env : VMEnv) (inp : VMCreateInput)
    (st : ResState) (calls0 : List ApiCall) :
    (vmExtCreateAfterImportCheck env inp st calls0).outcome.isImportConflict = false := by
  unfold vmExtCreateAfterImportCheck
  dsimp only
  repeat' split
  all_goals first
    | rfl
    | exact vmExtRead_not_conflict env _
    | (rename_i e heq
       first
         | exact vmExtResolveVm_no_conflict env inp e heq
         | exact vmExtJsonStep_no_conflict env "settings" inp.settings e heq
         | exact vmExtJsonStep_no_conflict env "protected_settings" inp.protected_settings e heq)

/-- The Read handler for integration runtimes never returns the import
conflict. -/
theorem dfRead_not_conflict (env : DFEnv) (st : ResState) :
    (dfRead env st).outcome.isImportConflict = false := by
  unfold dfRead
  dsimp only
  repeat' split
  all_goals rfl

/-- The post-existence-check part of the integration runtime Create/Update
handler never returns the import conflict. -/
theorem dfCreateAfterImportCheck_not_conflict (env : DFEnv) (inp : DFInput)
    (st : ResState) (calls0 : List ApiCall) :
    (dfCreateAfterImportCheck env inp st calls0).outcome.isImportConflict = false := by
  unfold dfCreateAfterImportCheck
  dsimp only
  repeat' split
  all_goals first
    | rfl
    | exact dfRead_not_conflict env _
    | (rename_i e heq
       exact dfPayloadStep_no_conflict inp e heq)

/-- The integration runtime Read handler never performs a wait. -/
theorem dfRead_no_wait (env : DFEnv) (st : ResState) :
    ApiCall.waitForCompletion ∉ (dfRead env st).calls := by
  unfold dfRead
  dsimp only
  repeat' split
  all_goals simp

/-- The post-existence-check part of the integration runtime Create/Update
handler adds no wait to the trace. -/
theorem dfCreateAfterImportCheck_no_wait (env : DFEnv) (inp : DFInput) (st : ResState)
    (calls0 : List ApiCall) (h0 : ApiCall.waitForCompletion ∉ calls0) :
    ApiCall.waitForCompletion ∉ (dfCreateAfterImportCheck env inp st calls0).calls := by
  unfold dfCreateAfterImportCheck
  dsimp only
  repeat' split
  all_goals simp_all [dfRead_no_wait env]

/-- When the post-existence-check part of the VM extension Create/Update
handler returns success, its trace contains the wait on the CreateOrUpdate
future. -/
theorem vmExtCreateAfterImportCheck_ok_wait (env : VMEnv) (inp : VMCreateInput)
    (st : ResState) (calls0 : List ApiCall) :
    (vmExtCreateAfterImportCheck env inp st calls0).outcome = .ok →
    ApiCall.waitForCompletion ∈ (vmExtCreateAfterImportCheck env inp st calls0).calls := by
  unfold vmExtCreateAfterImportCheck
  dsimp only
  repeat' split
  all_goals intro hok
  all_goals first
    | (simp; done)
    | simp at hok

/-- When the VM extension Create/Update handler returns success, its trace
contains the wait on the CreateOrUpdate future. -/
theorem vmExtCreateUpdate_ok_wait (env : VMEnv) (inp : VMCreateInput) (st : ResState) :
    (vmExtCreateUpdate env inp st).outcome = .ok →
    ApiCall.waitForCompletion ∈ (vmExtCreateUpdate env inp st).calls := by
  unfold vmExtCreateUpdate
  dsimp only
  repeat' split
  all_goals intro hok
  all_goals first
    | exact vmExtCreateAfterImportCheck_ok_wait env inp st _ hok
    | simp at hok

/-- When the VM extension Delete handler returns success, its trace contains
the wait on the Delete future. -/
theorem vmExtDelete_ok_wait (env : VMEnv) (st : ResState) :
    (vmExtDelete env st).outcome = .ok →
    ApiCall.waitForCompletion ∈ (vmExtDelete env st).calls := by
  unfold vmExtDelete
  dsimp only
  repeat' split
  all_goals intro hok
  all_goals first
    | (simp; done)
    | simp at hok

/-- The integration runtime Create/Update handler never performs a wait:
its CreateOrUpdate SDK call returns no future. -/
theorem dfCreateOrUpdate_no_wait (env : DFEnv) (inp : DFInput) (st : ResState) :
    ApiCall.waitForCompletion ∉ (dfCreateOrUpdate env inp st).calls := by
  unfold dfCreateOrUpdate
  dsimp only
  repeat' split
  all_goals first
    | (simp; done)
    | exact dfCreateAfterImportCheck_no_wait env inp st _ (by simp)

/-- The integration runtime Delete handler never performs a wait: its Delete
SDK call returns no future. -/
theorem dfDelete_no_wait (env : DFEnv) (st : ResState) :
    ApiCall.waitForCompletion ∉ (dfDelete env st).calls := by
  unfold dfDelete
  dsimp only
  repeat' split
  all_goals simp

/-- When the import existence check passes, the Create/Update handler reduces
to its post-check part, with a non-mutating call prefix. -/
theorem vmExtCreateUpdate_eq_afterCheck (env : VMEnv) (inp : VMCreateInput) (st : ResState)
    (hpass : vmImportCheckPasses env inp) :
    ∃ c0, vmExtCreateUpdate env inp st = vmExtCreateAfterImportCheck env inp st c0 ∧
      ∀ c ∈ c0, c.isMutating = false := by
  unfold vmExtCreateUpdate
  by_cases hb : (inp.shouldResourcesBeImported && inp.isNewResource) = true
  · obtain ⟨h1, h2⟩ := hpass hb
    refine ⟨[ApiCall.get inp.resource_group_name inp.virtual_machine_name inp.name], ?_, ?_⟩
    · simp [hb, h1, h2]
    · simp [ApiCall.isMutating]
  · refine ⟨[], ?_, by simp⟩
    simp [hb]

/-! ## Claim theorems -/

/-- C10: the integration runtime name validator returns an error only for
names composed entirely of characters from the forbidden set, and accepts
with no errors and no warnings every name containing at least one character
outside that set. -/
theorem C10_name_validator (v k : String) :
    ((validateAzureRMDataFactoryIntegrationRuntimeName v k).2 ≠ [] →
      v ≠ "" ∧ ∀ c ∈ v.data, c ∈ forbiddenRuntimeNameChars) ∧
    ((∃ c ∈ v.data, c ∉ forbiddenRuntimeNameChars) →
      validateAzureRMDataFactoryIntegrationRuntimeName v k = ([], [])) := by
  by_cases hb : runtimeNameMatches v = true
  · have hall := hb
    unfold runtimeNameMatches at hall
    simp only [Bool.and_eq_true, decide_eq_true_eq, List.all_eq_true] at hall
    constructor
    · intro _
      exact ⟨hall.1, hall.2⟩
    · rintro ⟨c, hc, hcn⟩
      exact absurd (hall.2 c hc) hcn
  · constructor
    · intro h
      unfold validateAzureRMDataFactoryIntegrationRuntimeName at h
      simp [hb] at h
    · intro _
      unfold validateAzureRMDataFactoryIntegrationRuntimeName
      simp [hb]

/-- C10 witness: a name with a character outside the forbidden set is
accepted with no warnings and no errors. -/
theorem C10_name_validator_witness :
    validateAzureRMDataFactoryIntegrationRuntimeName "runtime1" "name" = ([], []) :=
  (C10_name_validator "runtime1" "name").2 ⟨'r', by decide, by decide⟩

/-- C6: expanding the vnet attachment of a present compute_properties block
succeeds with vnet properties when both `vnet_id` and `subnet` are non-empty,
succeeds without vnet properties when both are empty, and fails with the
descriptive error exactly when one of the two is non-empty and the other
empty. -/
theorem C6_vnet_pair (cfg : ComputeConfig) :
    (cfg.vnet_id ≠ "" → cfg.subnet ≠ "" →
      expandCompute [cfg] = .ok ⟨some cfg.location, some cfg.node_size,
        some (toInt32 cfg.node_count), some (toInt32 cfg.max_node_executions),
        some ⟨cfg.vnet_id, cfg.subnet⟩⟩) ∧
    (cfg.vnet_id = "" → cfg.subnet = "" →
      expandCompute [cfg] = .ok ⟨some cfg.location, some cfg.node_size,
        some (toInt32 cfg.node_count), some (toInt32 cfg.max_node_executions), none⟩) ∧
    ((cfg.vnet_id ≠ "" ∧ cfg.subnet = "") ∨ (cfg.vnet_id = "" ∧ cfg.subnet ≠ "") →
      expandCompute [cfg] =
        .err "Both `vnet_id` and `subnet` must be provided if setting the vnet properties") := by
  refine ⟨?_, ?_, ?_⟩
  · intro h1 h2
    simp [expandCompute, h1, h2]
  · intro h1 h2
    simp [expandCompute, h1, h2]
  · rintro (⟨h1, h2⟩ | ⟨h1, h2⟩) <;> simp [expandCompute, h1, h2]

/-- C6 witness: both attributes supplied succeeds, only `vnet_id` supplied
fails with the descriptive error. -/
theorem C6_vnet_pair_witness :
    expandCompute [wCfgVnetBoth] = .ok ⟨some "westus", some "Standard_D8_v3",
      some 4, some 4, some ⟨"/vnets/v1", "sub1"⟩⟩ ∧
    expandCompute [wCfgVnetOnly] =
      .err "Both `vnet_id` and `subnet` must be provided if setting the vnet properties" :=
  ⟨(C6_vnet_pair wCfgVnetBoth).1 (by decide) (by decide),
   (C6_vnet_pair wCfgVnetOnly).2.2 (.inl ⟨by decide, by decide⟩)⟩

/-- C5: the Managed Create/Update path with an absent `compute_properties`
block reaches the unguarded index `computeProperties[0]` on an empty slice —
a runtime panic, not the clean error branch the claim describes. -/
theorem C5_managed_without_compute_panics :
    expandCompute [] = .panic ∧
    (dfCreateOrUpdate wDFEnvHappy wDFInputManagedNoCompute wStDF).outcome = .panic := by
  constructor
  · rfl
  · rfl

/-- C9: the VM extension Read handler never writes `protected_settings`;
its previously stored value is unchanged by any Read. -/
theorem C9_read_preserves_protected_settings (env : VMEnv) (st : ResState) :
    (vmExtRead env st).state.store.find "protected_settings" =
      st.store.find "protected_settings" := by
  unfold vmExtRead
  dsimp only
  repeat' split
  all_goals simp [Store.set, Store.find]

/-- C8: flattening the compute properties built by the expand function from
a vnet-free configuration yields a single-element block with the same
location, node_size, node_count and max_node_executions, and no `vnet_id` or
`subnet` key (in-range counters, as the schema validation guarantees). -/
theorem C8_flatten_expand_roundtrip (cfg : ComputeConfig)
    (hv : cfg.vnet_id = "") (hs : cfg.subnet = "")
    (hn1 : -(2 ^ 31) ≤ cfg.node_count) (hn2 : cfg.node_count < 2 ^ 31)
    (hm1 : -(2 ^ 31) ≤ cfg.max_node_executions) (hm2 : cfg.max_node_executions < 2 ^ 31) :
    ∀ p, expandCompute [cfg] = .ok p →
      flattenCompute (some p) =
        [[("location", .blkStr cfg.location), ("node_size", .blkStr cfg.node_size),
          ("node_count", .blkInt cfg.node_count),
          ("max_node_executions", .blkInt cfg.max_node_executions)]] ∧
      ∀ m, flattenCompute (some p) = [m] →
        blockFind m "vnet_id" = none ∧ blockFind m "subnet" = none ∧
        blockFind m "location" = some (.blkStr cfg.location) ∧
        blockFind m "node_size" = some (.blkStr cfg.node_size) ∧
        blockFind m "node_count" = some (.blkInt cfg.node_count) ∧
        blockFind m "max_node_executions" = some (.blkInt cfg.max_node_executions) := by
  intro p hp
  have ht1 : toInt32 cfg.node_count = cfg.node_count := by
    unfold toInt32
    omega
  have ht2 : toInt32 cfg.max_node_executions = cfg.max_node_executions := by
    unfold toInt32
    omega
  have hx : expandCompute [cfg] = .ok ⟨some cfg.location, some cfg.node_size,
      some cfg.node_count, some cfg.max_node_executions, none⟩ := by
    simp [expandCompute, hv, hs, ht1, ht2]
  rw [hx] at hp
  injection hp with hp2
  subst hp2
  constructor
  · simp [flattenCompute]
  · intro m hm
    simp [flattenCompute] at hm
    rw [← hm]
    simp [blockFind]

/-- C8 witness: the round trip at node_count = 4, max_node_executions = 4,
no vnet attributes. -/
theorem C8_flatten_expand_roundtrip_witness :
    flattenCompute (some ⟨some "westus", some "Standard_D8_v3", some 4, some 4, none⟩) =
      [[("location", .blkStr "westus"), ("node_size", .blkStr "Standard_D8_v3"),
        ("node_count", .blkInt 4), ("max_node_executions", .blkInt 4)]] :=
  (C8_flatten_expand_roundtrip wCfgNoVnet rfl rfl (by decide) (by decide) (by decide)
    (by decide) ⟨some "westus", some "Standard_D8_v3", some 4, some 4, none⟩ (by decide)).1

/-- C1: in both Read handlers, a Get failure whose response is not-found
clears the stored identifier and returns no error, while any other Get
failure returns an error and leaves the local state (identifier included)
unchanged. -/
theorem C1_read_not_found (vmEnv : VMEnv) (vmSt : ResState) (dfEnv : DFEnv)
    (dfSt : ResState) :
    (∀ (pid : ParsedId) (g : VMGetOutcome) (e : String),
      vmEnv.parseId vmSt.id = .ok pid →
      vmEnv.get pid.resourceGroup ((pid.find "virtualMachines").getD "")
        ((pid.find "extensions").getD "") = g →
      g.err = some e →
      (g.notFound = true →
        (vmExtRead vmEnv vmSt).state.id = "" ∧ (vmExtRead vmEnv vmSt).outcome = .ok) ∧
      (g.notFound = false →
        (vmExtRead vmEnv vmSt).outcome =
          .err (.message ("Error making Read request on Virtual Machine Extension " ++
            (pid.find "extensions").getD "" ++ ": " ++ e)) ∧
        (vmExtRead vmEnv vmSt).state = vmSt)) ∧
    (∀ (pid : ParsedId) (g : DFGetOutcome) (e : String),
      dfEnv.parseId dfSt.id = .ok pid →
      dfEnv.get pid.resourceGroup ((pid.find "factories").getD "")
        ((pid.find "integrationruntimes").getD "") = g →
      g.err = some e →
      (g.notFound = true →
        (dfRead dfEnv dfSt).state.id = "" ∧ (dfRead dfEnv dfSt).outcome = .ok) ∧
      (g.notFound = false →
        (dfRead dfEnv dfSt).outcome =
          .err (.message ("Error reading the state of Data Factory Integration Runtime " ++
            (pid.find "integrationruntimes").getD "" ++ ": " ++ e)) ∧
        (dfRead dfEnv dfSt).state = dfSt)) := by
  constructor
  · intro pid g e hp hg he
    constructor
    · intro hnf
      simp [vmExtRead, hp, hg, he, hnf]
    · intro hnf
      simp [vmExtRead, hp, hg, he, hnf]
  · intro pid g e hp hg he
    constructor
    · intro hnf
      simp [dfRead, hp, hg, he, hnf]
    · intro hnf
      simp [dfRead, hp, hg, he, hnf]

/-- C1 witness: at a concrete 404 environment both Read handlers clear the
identifier and return success; at a concrete non-404 failure both return an
error and leave the state unchanged. -/
theorem C1_read_not_found_witness :
    ((vmExtRead wVMEnvNotFound wStVM).state.id = "" ∧
      (vmExtRead wVMEnvNotFound wStVM).outcome = .ok) ∧
    ((dfRead wDFEnvNotFound wStDF).state.id = "" ∧
      (dfRead wDFEnvNotFound wStDF).outcome = .ok) ∧
    ((vmExtRead wVMEnvFail wStVM).outcome =
      .err (.message "Error making Read request on Virtual Machine Extension ext1: throttled") ∧
      (vmExtRead wVMEnvFail wStVM).state = wStVM) ∧
    ((dfRead wDFEnvFail wStDF).outcome =
      .err (.message
        "Error reading the state of Data Factory Integration Runtime ir1: throttled") ∧
      (dfRead wDFEnvFail wStDF).state = wStDF) := by
  refine ⟨?_, ?_, ?_, ?_⟩
  · exact ((C1_read_not_found wVMEnvNotFound wStVM wDFEnvNotFound wStDF).1 wId
      wVMGetNotFound "404 not found" rfl rfl rfl).1 rfl
  · exact ((C1_read_not_found wVMEnvNotFound wStVM wDFEnvNotFound wStDF).2 wId
      wDFGetNotFound "404 not found" rfl rfl rfl).1 rfl
  · exact ((C1_read_not_found wVMEnvFail wStVM wDFEnvFail wStDF).1 wId
      wVMGetFail "throttled" rfl rfl rfl).2 rfl
  · exact ((C1_read_not_found wVMEnvFail wStVM wDFEnvFail wStDF).2 wId
      wDFGetFail "throttled" rfl rfl rfl).2 rfl

/-- C2: in both Create/Update handlers, with adoption disallowed on a new
resource, an existence-check Get revealing an object with a non-nil,
non-empty ID makes the handler fail with the import conflict carrying that
ID after the single check Get — no create-or-update call is issued; with
adoption disallowed off, the handler skips the check entirely (it equals its
post-check part with an empty trace prefix) and never returns the import
conflict. -/
theorem C2_existing_conflict :
    (∀ (env : VMEnv) (inp : VMCreateInput) (st : ResState) (g : VMGetOutcome) (i : String),
      inp.shouldResourcesBeImported = true → inp.isNewResource = true →
      env.get inp.resource_group_name inp.virtual_machine_name inp.name = g →
      (g.err.isSome && !g.notFound) = false →
      g.respId = some i → i ≠ "" →
      (vmExtCreateUpdate env inp st).outcome =
        .err (.importAsExists "azurerm_virtual_machine_extension" i) ∧
      (vmExtCreateUpdate env inp st).calls =
        [ApiCall.get inp.resource_group_name inp.virtual_machine_name inp.name]) ∧
    (∀ (env : VMEnv) (inp : VMCreateInput) (st : ResState),
      inp.shouldResourcesBeImported = false →
      vmExtCreateUpdate env inp st = vmExtCreateAfterImportCheck env inp st [] ∧
      (vmExtCreateUpdate env inp st).outcome.isImportConflict = false) ∧
    (∀ (env : DFEnv) (inp : DFInput) (st : ResState) (g : DFGetOutcome) (i : String),
      inp.requireResourcesToBeImported = true → inp.isNewResource = true →
      env.get inp.resource_group_name inp.data_factory_name inp.name = g →
      (g.err.isSome && !g.notFound) = false →
      g.respId = some i → i ≠ "" →
      (dfCreateOrUpdate env inp st).outcome =
        .err (.importAsExists "azurerm_data_factory_integration_runtime" i) ∧
      (dfCreateOrUpdate env inp st).calls =
        [ApiCall.get inp.resource_group_name inp.data_factory_name inp.name]) ∧
    (∀ (env : DFEnv) (inp : DFInput) (st : ResState),
      inp.requireResourcesToBeImported = false →
      dfCreateOrUpdate env inp st = dfCreateAfterImportCheck env inp st [] ∧
      (dfCreateOrUpdate env inp st).outcome.isImportConflict = false) := by
  refine ⟨?_, ?_, ?_, ?_⟩
  · intro env inp st g i h1 h2 hg hchk hid hi
    unfold vmExtCreateUpdate
    simp [h1, h2, hg, hchk, hid, hi]
  · intro env inp st h
    have heq : vmExtCreateUpdate env inp st = vmExtCreateAfterImportCheck env inp st [] := by
      unfold vmExtCreateUpdate
      simp [h]
    exact ⟨heq, heq ▸ vmExtCreateAfterImportCheck_not_conflict env inp st []⟩
  · intro env inp st g i h1 h2 hg hchk hid hi
    unfold dfCreateOrUpdate
    simp [h1, h2, hg, hchk, hid, hi]
  · intro env inp st h
    have heq : dfCreateOrUpdate env inp st = dfCreateAfterImportCheck env inp st [] := by
      unfold dfCreateOrUpdate
      simp [h]
    exact ⟨heq, heq ▸ dfCreateAfterImportCheck_not_conflict env inp st []⟩

/-- C2 witness: concrete conflict failures (both handlers) and concrete
skipped checks with adoption allowed. -/
theorem C2_existing_conflict_witness :
    (vmExtCreateUpdate wVMEnvExisting wVMInputGuarded wStVM).outcome =
      .err (.importAsExists "azurerm_virtual_machine_extension" "/subs/s1/ext-exists") ∧
    (dfCreateOrUpdate wDFEnvExisting wDFInputGuarded wStDF).outcome =
      .err (.importAsExists "azurerm_data_factory_integration_runtime" "/subs/s1/ir-exists") ∧
    vmExtCreateUpdate wVMEnvExisting wVMInputHappy wStVM =
      vmExtCreateAfterImportCheck wVMEnvExisting wVMInputHappy wStVM [] ∧
    dfCreateOrUpdate wDFEnvExisting wDFInputSelfHosted wStDF =
      dfCreateAfterImportCheck wDFEnvExisting wDFInputSelfHosted wStDF [] :=
  ⟨(C2_existing_conflict.1 wVMEnvExisting wVMInputGuarded wStVM wVMGetExisting
      "/subs/s1/ext-exists" rfl rfl rfl rfl rfl (by decide)).1,
   (C2_existing_conflict.2.2.1 wDFEnvExisting wDFInputGuarded wStDF wDFGetExisting
      "/subs/s1/ir-exists" rfl rfl rfl rfl rfl (by decide)).1,
   (C2_existing_conflict.2.1 wVMEnvExisting wVMInputHappy wStVM rfl).1,
   (C2_existing_conflict.2.2.2 wDFEnvExisting wDFInputSelfHosted wStDF rfl).1⟩

/-- C3 counterexample: the data factory Delete and Create/Update handlers
issue no wait on any long-running-operation handle — the SDK calls they use
return none — even on a successful run, contradicting the claim that every
Create/Update and Delete handler blocks on a pollable handle returned by the
API. -/
theorem C3_counterexample :
    (dfDelete wDFEnvHappy wStDF).outcome = .ok ∧
    ApiCall.waitForCompletion ∉ (dfDelete wDFEnvHappy wStDF).calls ∧
    (dfCreateOrUpdate wDFEnvHappy wDFInputSelfHosted wStDF).outcome = .ok ∧
    ApiCall.waitForCompletion ∉ (dfCreateOrUpdate wDFEnvHappy wDFInputSelfHosted wStDF).calls := by
  refine ⟨by decide, by decide, by decide, by decide⟩

/-- C3 amended: the VM extension Create/Update and Delete handlers wait on
the future returned by their CreateOrUpdate/Delete calls before returning
success; the data factory integration runtime Create/Update and Delete
handlers call synchronous SDK operations that return no pollable handle, so
their traces never contain a wait. -/
theorem C3_lro_wait :
    (∀ (env : VMEnv) (inp : VMCreateInput) (st : ResState),
      (vmExtCreateUpdate env inp st).outcome = .ok →
      ApiCall.waitForCompletion ∈ (vmExtCreateUpdate env inp st).calls) ∧
    (∀ (env : VMEnv) (st : ResState),
      (vmExtDelete env st).outcome = .ok →
      ApiCall.waitForCompletion ∈ (vmExtDelete env st).calls) ∧
    (∀ (env : DFEnv) (inp : DFInput) (st : ResState),
      ApiCall.waitForCompletion ∉ (dfCreateOrUpdate env inp st).calls) ∧
    (∀ (env : DFEnv) (st : ResState),
      ApiCall.waitForCompletion ∉ (dfDelete env st).calls) :=
  ⟨vmExtCreateUpdate_ok_wait, vmExtDelete_ok_wait, dfCreateOrUpdate_no_wait, dfDelete_no_wait⟩

/-- C3 witness: a successful concrete VM extension Create/Update and Delete
each wait on the future; the concrete data factory runs never wait. -/
theorem C3_lro_wait_witness :
    (vmExtCreateUpdate wVMEnvHappy wVMInputHappy wStVM).outcome = .ok ∧
    ApiCall.waitForCompletion ∈ (vmExtCreateUpdate wVMEnvHappy wVMInputHappy wStVM).calls ∧
    (vmExtDelete wVMEnvHappy wStVM).outcome = .ok ∧
    ApiCall.waitForCompletion ∈ (vmExtDelete wVMEnvHappy wStVM).calls ∧
    ApiCall.waitForCompletion ∉ (dfCreateOrUpdate wDFEnvHappy wDFInputSelfHosted wStDF).calls ∧
    ApiCall.waitForCompletion ∉ (dfDelete wDFEnvHappy wStDF).calls :=
  ⟨by decide,
   C3_lro_wait.1 wVMEnvHappy wVMInputHappy wStVM (by decide),
   by decide,
   C3_lro_wait.2.1 wVMEnvHappy wStVM (by decide),
   C3_lro_wait.2.2.1 wDFEnvHappy wDFInputSelfHosted wStDF,
   C3_lro_wait.2.2.2 wDFEnvHappy wStDF⟩

/-- C4: in the VM extension Create/Update handler (past the import check),
exactly one identifier resolution path must succeed: both references empty
fails with the descriptive error; a parse failure or a missing
`virtualMachines` segment of `virtual_machine_id` fails with a descriptive
error; `virtual_machine_name` without `resource_group_name` fails with a
descriptive error — each before any mutating call; and a parsable
`virtual_machine_id` yields the resource group and VM name derived from it. -/
theorem C4_resolution_paths (env : VMEnv) (inp : VMCreateInput) (st : ResState)
    (hpass : vmImportCheckPasses env inp) :
    (inp.virtual_machine_name = "" → inp.virtual_machine_id = "" →
      (vmExtCreateUpdate env inp st).outcome =
        .err (.message "one of `virtual_machine_id` or `virtual_machine_name` must be set") ∧
      ∀ c ∈ (vmExtCreateUpdate env inp st).calls, c.isMutating = false) ∧
    (∀ e, inp.virtual_machine_name = "" → inp.virtual_machine_id ≠ "" →
      env.parseId inp.virtual_machine_id = .error e →
      (vmExtCreateUpdate env inp st).outcome = .err (.message e) ∧
      ∀ c ∈ (vmExtCreateUpdate env inp st).calls, c.isMutating = false) ∧
    (∀ pid, inp.virtual_machine_name = "" → inp.virtual_machine_id ≠ "" →
      env.parseId inp.virtual_machine_id = .ok pid →
      pid.find "virtualMachines" = none →
      (vmExtCreateUpdate env inp st).outcome = .err (.message
        ("virtual_machine_id does not contain `virtualMachines`: " ++
          inp.virtual_machine_id)) ∧
      ∀ c ∈ (vmExtCreateUpdate env inp st).calls, c.isMutating = false) ∧
    (inp.virtual_machine_name ≠ "" → inp.resource_group_name = "" →
      (vmExtCreateUpdate env inp st).outcome = .err (.message
        "one of `resource_group_name` must be set when `virtual_machine_name` is used") ∧
      ∀ c ∈ (vmExtCreateUpdate env inp st).calls, c.isMutating = false) ∧
    (∀ pid vmn, inp.virtual_machine_name = "" → inp.virtual_machine_id ≠ "" →
      env.parseId inp.virtual_machine_id = .ok pid →
      pid.find "virtualMachines" = some vmn →
      vmExtResolveVm env inp = .ok (pid.resourceGroup, vmn)) := by
  obtain ⟨c0, heq, hc0⟩ := vmExtCreateUpdate_eq_afterCheck env inp st hpass
  rw [heq]
  refine ⟨?_, ?_, ?_, ?_, ?_⟩
  · intro h1 h2
    have hres : vmExtResolveVm env inp =
        .error (.message "one of `virtual_machine_id` or `virtual_machine_name` must be set") := by
      simp [vmExtResolveVm, h1, h2]
    have hr : vmExtCreateAfterImportCheck env inp st c0 =
        ⟨.err (.message "one of `virtual_machine_id` or `virtual_machine_name` must be set"),
         st, c0⟩ := by
      simp [vmExtCreateAfterImportCheck, hres]
    rw [hr]
    exact ⟨rfl, hc0⟩
  · intro e h1 h2 h3
    have hres : vmExtResolveVm env inp = .error (.message e) := by
      simp [vmExtResolveVm, h1, h2, h3]
    have hr : vmExtCreateAfterImportCheck env inp st c0 = ⟨.err (.message e), st, c0⟩ := by
      simp [vmExtCreateAfterImportCheck, hres]
    rw [hr]
    exact ⟨rfl, hc0⟩
  · intro pid h1 h2 h3 h4
    have hres : vmExtResolveVm env inp = .error (.message
        ("virtual_machine_id does not contain `virtualMachines`: " ++
          inp.virtual_machine_id)) := by
      simp [vmExtResolveVm, h1, h2, h3, h4]
    have hr : vmExtCreateAfterImportCheck env inp st c0 = ⟨.err (.message
        ("virtual_machine_id does not contain `virtualMachines`: " ++
          inp.virtual_machine_id)), st, c0⟩ := by
      simp [vmExtCreateAfterImportCheck, hres]
    rw [hr]
    exact ⟨rfl, hc0⟩
  · intro h1 h2
    have hres : vmExtResolveVm env inp = .error (.message
        "one of `resource_group_name` must be set when `virtual_machine_name` is used") := by
      simp [vmExtResolveVm, h1, h2]
    have hr : vmExtCreateAfterImportCheck env inp st c0 = ⟨.err (.message
        "one of `resource_group_name` must be set when `virtual_machine_name` is used"),
        st, c0⟩ := by
      simp [vmExtCreateAfterImportCheck, hres]
    rw [hr]
    exact ⟨rfl, hc0⟩
  · intro pid vmn h1 h2 h3 h4
    simp [vmExtResolveVm, h1, h2, h3, h4]

/-- C4 witness: with both references empty the handler fails with the
descriptive error and no mutating call. -/
theorem C4_resolution_paths_witness :
    (vmExtCreateUpdate wVMEnvHappy wVMInputNoVm wStVM).outcome =
      .err (.message "one of `virtual_machine_id` or `virtual_machine_name` must be set") ∧
    ∀ c ∈ (vmExtCreateUpdate wVMEnvHappy wVMInputNoVm wStVM).calls, c.isMutating = false :=
  (C4_resolution_paths wVMEnvHappy wVMInputNoVm wStVM
    (by intro h; simp [wVMInputNoVm] at h)).1 rfl rfl

/-- C7: in the VM extension Create/Update handler (past the import check and
with the identifier resolved), a non-empty `settings` string that fails JSON
decoding aborts with the parse error naming `settings`, and a non-empty
`protected_settings` string that fails JSON decoding (with `settings` having
been handled) aborts with the parse error naming `protected_settings` — in
both cases with no mutating call issued, so remote state is untouched. -/
theorem C7_json_parse_errors (env : VMEnv) (inp : VMCreateInput) (st : ResState)
    (hpass : vmImportCheckPasses env inp) :
    (∀ rv e, vmExtResolveVm env inp = .ok rv →
      inp.settings ≠ "" → env.expandJson inp.settings = .error e →
      (vmExtCreateUpdate env inp st).outcome =
        .err (.message ("unable to parse settings: " ++ e)) ∧
      ∀ c ∈ (vmExtCreateUpdate env inp st).calls, c.isMutating = false) ∧
    (∀ rv ms e, vmExtResolveVm env inp = .ok rv →
      vmExtJsonStep env "settings" inp.settings = .ok ms →
      inp.protected_settings ≠ "" → env.expandJson inp.protected_settings = .error e →
      (vmExtCreateUpdate env inp st).outcome =
        .err (.message ("unable to parse protected_settings: " ++ e)) ∧
      ∀ c ∈ (vmExtCreateUpdate env inp st).calls, c.isMutating = false) := by
  obtain ⟨c0, heq, hc0⟩ := vmExtCreateUpdate_eq_afterCheck env inp st hpass
  rw [heq]
  constructor
  · rintro ⟨rg, vm⟩ e hres hs he
    have hstep : vmExtJsonStep env "settings" inp.settings =
        .error (.message ("unable to parse settings: " ++ e)) := by
      simp [vmExtJsonStep, hs, he]
    have hr : vmExtCreateAfterImportCheck env inp st c0 =
        ⟨.err (.message ("unable to parse settings: " ++ e)), st, c0⟩ := by
      simp [vmExtCreateAfterImportCheck, hres, hstep]
    rw [hr]
    exact ⟨rfl, hc0⟩
  · rintro ⟨rg, vm⟩ ms e hres hstep1 hp he
    have hstep2 : vmExtJsonStep env "protected_settings" inp.protected_settings =
        .error (.message ("unable to parse protected_settings: " ++ e)) := by
      simp [vmExtJsonStep, hp, he]
    have hr : vmExtCreateAfterImportCheck env inp st c0 =
        ⟨.err (.message ("unable to parse protected_settings: " ++ e)), st, c0⟩ := by
      simp [vmExtCreateAfterImportCheck, hres, hstep1, hstep2]
    rw [hr]
    exact ⟨rfl, hc0⟩

/-- C7 witness: concrete non-JSON `settings` and `protected_settings`
strings each abort with the attribute-naming parse error and no mutating
call. -/
theorem C7_json_parse_errors_witness :
    ((vmExtCreateUpdate wVMEnvBadJson wVMInputBadSettings wStVM).outcome =
      .err (.message "unable to parse settings: invalid character") ∧
      ∀ c ∈ (vmExtCreateUpdate wVMEnvBadJson wVMInputBadSettings wStVM).calls,
        c.isMutating = false) ∧
    ((vmExtCreateUpdate wVMEnvBadJson wVMInputBadProtected wStVM).outcome =
      .err (.message "unable to parse protected_settings: invalid character") ∧
      ∀ c ∈ (vmExtCreateUpdate wVMEnvBadJson wVMInputBadProtected wStVM).calls,
        c.isMutating = false) :=
  ⟨(C7_json_parse_errors wVMEnvBadJson wVMInputBadSettings wStVM
      (by intro h; simp [wVMInputBadSettings] at h)).1 ("rg1", "vm1") "invalid character"
      rfl (by decide) rfl,
   (C7_json_parse_errors wVMEnvBadJson wVMInputBadProtected wStVM
      (by intro h; simp [wVMInputBadProtected] at h)).2 ("rg1", "vm1") none "invalid character"
      rfl rfl (by decide) rfl⟩
